import Mathlib

/-!
# Verification of the urban-planning zoning compliance engine

Shallow embedding of the decision logic of the repository
`urban_planning_and_design14` (four Streamlit phases).  Python numbers are
modelled as `ℚ`, Python strings as `String`, Python lists as `List`, and the
fallible table build as `Except`.  Streamlit rendering, file I/O and session
state are outside the embedding; the functions below are the pure decision
logic that the claims are about.
-/

namespace Urban

/-- One row of the zoning-rule table (`zoning_data.csv` columns). -/
structure ZoningRule where
  land_type : String
  max_height : ℚ
  pop_density_limit : ℚ
  near_main_road : String
  setback_min : ℚ
  floor_area_ratio : ℚ
deriving DecidableEq

/-- The caller-supplied development proposal (form inputs of the main app). -/
structure Proposal where
  land_type : String
  height : ℚ
  population_density : ℚ
  near_main_road : String
  setback : ℚ
  floor_area_ratio : ℚ
deriving DecidableEq

/-! ## The five compliance checks

From `urban_planning_and_design14.py` lines 75-98 (the same block appears
verbatim in `upd_phase4.py` lines 57-80).  Each check is an independent
`if`/`else` on the proposal and the selected rule. -/

/-- `height > selected_rule["max_height"]` -/
def heightViolation (p : Proposal) (r : ZoningRule) : Bool :=
  p.height > r.max_height

/-- `population_density > selected_rule["pop_density_limit"]` -/
def densityViolation (p : Proposal) (r : ZoningRule) : Bool :=
  p.population_density > r.pop_density_limit

/-- `near_main_road != selected_rule["near_main_road"]` (main file and phase 4:
no case normalization on either side). -/
def proximityViolation (p : Proposal) (r : ZoningRule) : Bool :=
  p.near_main_road != r.near_main_road

/-- `setback < selected_rule["setback_min"]` -/
def setbackViolation (p : Proposal) (r : ZoningRule) : Bool :=
  p.setback < r.setback_min

/-- `floor_area_ratio > selected_rule["floor_area_ratio"]` -/
def farViolation (p : Proposal) (r : ZoningRule) : Bool :=
  p.floor_area_ratio > r.floor_area_ratio

/-- Python `str.lower()` (over the character list, so that concrete instances
reduce in the kernel; `String.toLower` is the same map). -/
def pyLower (s : String) : String := ⟨s.data.map Char.toLower⟩

/-- Python `str.strip()`: remove whitespace from both ends. -/
def pyStrip (s : String) : String :=
  ⟨((s.data.dropWhile Char.isWhitespace).reverse.dropWhile Char.isWhitespace).reverse⟩

/-- `upd_phase3.py` line 45: the historical variant of the proximity check,
`near_main_road.lower() != str(selected_rule["near_main_road"]).lower()`. -/
def proximityViolation3 (propNear ruleNear : String) : Bool :=
  pyLower propNear != pyLower ruleNear

/-! ## Violation / compliance messages (f-strings of the main file) -/

def heightViolationMsg (r : ZoningRule) : String :=
  "🚫 Height exceeds " ++ toString r.max_height ++ " meters."

def heightOkMsg (p : Proposal) : String :=
  "✅ Height of " ++ toString p.height ++ "m is within the allowed limit."

def densityViolationMsg (r : ZoningRule) : String :=
  "🚫 Density exceeds " ++ toString r.pop_density_limit ++ " per km²."

def densityOkMsg (p : Proposal) : String :=
  "✅ Population density of " ++ toString p.population_density ++ " per km² is allowed."

def proximityViolationMsg (r : ZoningRule) : String :=
  "🚫 Site should be " ++ r.near_main_road ++ " to a main road."

def proximityOkMsg : String :=
  "✅ Proximity to main road is acceptable."

def setbackViolationMsg (r : ZoningRule) : String :=
  "🚫 Setback is less than " ++ toString r.setback_min ++ " meters."

def setbackOkMsg (p : Proposal) : String :=
  "✅ Setback of " ++ toString p.setback ++ "m is compliant."

def farViolationMsg (r : ZoningRule) : String :=
  "🚫 FAR exceeds " ++ toString r.floor_area_ratio ++ "."

def farOkMsg (p : Proposal) : String :=
  "✅ FAR of " ++ toString p.floor_area_ratio ++ " is compliant."

/-- One `if cond: violations.append(vMsg) else: compliances.append(cMsg)` step
of the Python check battery, acting on the `(violations, compliances)` pair. -/
def appendCheck (acc : List String × List String) (isViol : Bool)
    (vMsg cMsg : String) : List String × List String :=
  if isViol then (acc.1 ++ [vMsg], acc.2) else (acc.1, acc.2 ++ [cMsg])

/-- The check battery of `urban_planning_and_design14.py` lines 72-98 (and
`upd_phase4.py` lines 55-80): starting from `violations, compliances = [], []`,
run the five checks in source order, each appending one message to exactly one
of the two lists.  Returns `(violations, compliances)`. -/
def evaluateLists (p : Proposal) (r : ZoningRule) : List String × List String :=
  let acc : List String × List String := ([], [])
  let acc := appendCheck acc (heightViolation p r) (heightViolationMsg r) (heightOkMsg p)
  let acc := appendCheck acc (densityViolation p r) (densityViolationMsg r) (densityOkMsg p)
  let acc := appendCheck acc (proximityViolation p r) (proximityViolationMsg r) proximityOkMsg
  let acc := appendCheck acc (setbackViolation p r) (setbackViolationMsg r) (setbackOkMsg p)
  let acc := appendCheck acc (farViolation p r) (farViolationMsg r) (farOkMsg p)
  acc

/-! ## Recommendations (`upd_phase4.py` lines 102-114)

The source iterates over the violation message strings and dispatches on
Python substring tests (`"Height" in v`, `elif "Density" in v`, ...). -/

/-- Whether `pat` is an initial segment of `s`. -/
def startsWithL : List Char → List Char → Bool
  | [], _ => true
  | _ :: _, [] => false
  | p :: ps, c :: cs => p == c && startsWithL ps cs

/-- Whether `pat` occurs contiguously in `s` (Python's `pat in s`). -/
def containsSubL (pat : List Char) : List Char → Bool
  | [] => startsWithL pat []
  | c :: cs => startsWithL pat (c :: cs) || containsSubL pat cs

/-- Python's substring operator `pat in s` on strings. -/
def containsSub (pat s : String) : Bool := containsSubL pat.data s.data

/-- One iteration of the recommendation loop of `upd_phase4.py` lines 104-114:
the remediation written for a violation message `v`, keyed by the first of the
five keyword substring tests that matches, and nothing when none matches. -/
def recommendForMsg (r : ZoningRule) (v : String) : Option String :=
  if containsSub "Height" v then
    some ("- Reduce height to " ++ toString r.max_height ++ "m or apply for variance.")
  else if containsSub "Density" v then
    some "- Reduce population or adjust property size."
  else if containsSub "Proximity" v then
    some "- Consider alternative location."
  else if containsSub "Setback" v then
    some ("- Increase setback to at least " ++ toString r.setback_min ++ " meters.")
  else if containsSub "FAR" v then
    some ("- Lower FAR below " ++ toString r.floor_area_ratio ++ ".")
  else none

/-- All remediation strings written by the loop, in violation order. -/
def recommendations (r : ZoningRule) (violations : List String) : List String :=
  violations.filterMap (recommendForMsg r)

/-! ## Intent responder

Main file lines 125-131 and 144-148: a dict of canned answers with
lower-case keys, queried with `user_query.lower().strip()` and a default.
`upd_phase5.py` lines 132-144: an earlier variant whose dict still has the
unnormalized key `"FAR"` and which queries with `user_query.lower()` only
(no strip). -/

/-- The `responses` dict of `urban_planning_and_design14.py` lines 125-131. -/
def responses : List (String × String) :=
  [("height limit", "🚧 The maximum building height allowed varies by zone."),
   ("population density", "🏙️ Population density limits help prevent overcrowding."),
   ("far", "📐 Floor Area Ratio defines the relationship between building size and land area."),
   ("setback", "🏠 Setbacks ensure buildings maintain proper distance from roads and neighboring properties."),
   ("exit", "👋 Goodbye! Chat session has ended.")]

/-- The fallback answer of main-file line 148. -/
def fallback : String :=
  "🤖 I can help with zoning regulations like height limits, FAR, setbacks, and density."

/-- Python `d.get(k, dflt)` on a dict modelled as an association list. -/
def dictGet (d : List (String × String)) (k dflt : String) : String :=
  match d.find? (fun kv => kv.1 == k) with
  | some kv => kv.2
  | none => dflt

/-- Main file lines 147-148: `query_key = user_query.lower().strip()`, then
`responses.get(query_key, fallback)`. -/
def respond (q : String) : String :=
  dictGet responses (pyStrip (pyLower q)) fallback

/-- The first `responses` dict of `upd_phase5.py` lines 132-137. -/
def responses5 : List (String × String) :=
  [("height limit", "🚧 The maximum building height allowed varies by zone."),
   ("population density", "🏙️ Population density limits help prevent overcrowding."),
   ("FAR", "📐 Floor Area Ratio defines the relationship between building size and land area."),
   ("setback", "🏠 Setbacks ensure buildings maintain proper distance from roads and neighboring properties.")]

/-- The fallback of `upd_phase5.py` line 144. -/
def fallback5 : String :=
  "🤔 I can help with zoning regulations, setbacks, FAR, and population density!"

/-- `upd_phase5.py` lines 140-144: membership test and indexing with
`user_query.lower()` — no strip. -/
def respond5 (q : String) : String :=
  dictGet responses5 (pyLower q) fallback5

/-! ## Spec-side view: CheckResult sequence (spec §3, §4.2) -/

/-- Enumerated check kinds of spec §3. -/
inductive CheckKind where
  | HeightLimit
  | PopulationDensity
  | ProximityToRoad
  | Setback
  | FloorAreaRatio
deriving DecidableEq

/-- Check status of spec §3. -/
inductive Status where
  | Compliant
  | Violation
deriving DecidableEq

/-- Outcome of one rule check (spec §3). -/
structure CheckResult where
  kind : CheckKind
  status : Status
  message : String
deriving DecidableEq

def checkStatus (isViol : Bool) : Status :=
  if isViol then Status.Violation else Status.Compliant

def checkMsg (isViol : Bool) (vMsg cMsg : String) : String :=
  if isViol then vMsg else cMsg

/-- Modelled from the spec: the ComplianceReport body of §3/§4.2 — the five
CheckResults in the fixed order Height, Density, Proximity, Setback, FAR, each
carrying the status and message of the corresponding source check.  Used as
the spec-side description that `evaluateLists` is compared against. -/
def evaluateSpec (p : Proposal) (r : ZoningRule) : List CheckResult :=
  [ ⟨CheckKind.HeightLimit, checkStatus (heightViolation p r),
      checkMsg (heightViolation p r) (heightViolationMsg r) (heightOkMsg p)⟩,
    ⟨CheckKind.PopulationDensity, checkStatus (densityViolation p r),
      checkMsg (densityViolation p r) (densityViolationMsg r) (densityOkMsg p)⟩,
    ⟨CheckKind.ProximityToRoad, checkStatus (proximityViolation p r),
      checkMsg (proximityViolation p r) (proximityViolationMsg r) proximityOkMsg⟩,
    ⟨CheckKind.Setback, checkStatus (setbackViolation p r),
      checkMsg (setbackViolation p r) (setbackViolationMsg r) (setbackOkMsg p)⟩,
    ⟨CheckKind.FloorAreaRatio, checkStatus (farViolation p r),
      checkMsg (farViolation p r) (farViolationMsg r) (farOkMsg p)⟩ ]

/-! ## Building the rule table (`upd_phase3.py` lines 5-18)

The source reads the CSV with `pd.read_csv` (raising `EmptyDataError` when the
file has no columns at all), strips the column names, and checks that the
`land_type` column is present; file-reading itself (`FileNotFoundError`) is
outside the embedding.  `pd.read_csv` infers a column as numeric only when
every cell of the column parses as a number; otherwise the cells are kept as
strings — nothing is rejected. -/

/-- Raw tabular input: the header row and the data rows, all as strings. -/
structure RawTable where
  header : List String
  rows : List (List String)
deriving DecidableEq

/-- The two build-time failures of `upd_phase3.py`
(`pd.errors.EmptyDataError` and the missing `land_type` column check). -/
inductive BuildError where
  | emptyData
  | missingLandType
deriving DecidableEq

/-- A parsed cell: numeric when its whole column parses, else the raw string. -/
inductive CellValue where
  | num (q : ℚ)
  | str (s : String)
deriving DecidableEq

/-- Parse a non-empty all-digit character list as a natural number. -/
def parseDigits (cs : List Char) : Option ℕ :=
  if cs.isEmpty then none
  else if cs.all Char.isDigit then
    some (cs.foldl (fun n c => 10 * n + (c.toNat - 48)) 0)
  else none

/-- Split a character list at every `'.'` (the parts, in order). -/
def splitOnDot : List Char → List (List Char)
  | [] => [[]]
  | c :: rest =>
      if c = '.' then [] :: splitOnDot rest
      else
        match splitOnDot rest with
        | [] => [[c]]
        | h :: t => (c :: h) :: t

/-- Decimal numeral parser modelling pandas' numeric conversion of a cell:
an optional sign, an integer part, and an optional fractional part. -/
def parseRat (s : String) : Option ℚ :=
  let signSplit : Bool × List Char :=
    match s.data with
    | '-' :: rest => (true, rest)
    | cs => (false, cs)
  let neg := signSplit.1
  match splitOnDot signSplit.2 with
  | [intPart] =>
      (parseDigits intPart).map fun n => if neg then -(n : ℚ) else (n : ℚ)
  | [intPart, fracPart] =>
      match parseDigits intPart, parseDigits fracPart with
      | some i, some f =>
          let q : ℚ := (i : ℚ) + (f : ℚ) / ((10 : ℚ) ^ fracPart.length)
          some (if neg then -q else q)
      | _, _ => none
  | _ => none

/-- The cells of column `j` (as pandas reads a rectangular CSV). -/
def colCells (rows : List (List String)) (j : ℕ) : List String :=
  rows.map fun row => row.getD j ""

/-- pandas' dtype inference: a column is numeric when every cell parses. -/
def colNumeric (rows : List (List String)) (j : ℕ) : Bool :=
  (colCells rows j).all fun c => (parseRat c).isSome

/-- A single cell after pandas' column-wise inference: numeric in a numeric
column, otherwise left as the raw string (never rejected). -/
def parsedCell (rows : List (List String)) (j : ℕ) (c : String) : CellValue :=
  if colNumeric rows j then CellValue.num ((parseRat c).getD 0) else CellValue.str c

/-- The validated table produced by a successful build. -/
structure BuiltTable where
  header : List String
  rows : List (List CellValue)
deriving DecidableEq

/-- The build of `upd_phase3.py` lines 5-18: fail with `EmptyDataError` when
the input has no columns, strip the column names
(`rules_df.columns = rules_df.columns.str.strip()`), fail when `land_type` is
absent from the stripped columns, and otherwise keep every row with pandas'
column-wise numeric inference. -/
def build (raw : RawTable) : Except BuildError BuiltTable :=
  if raw.header.isEmpty then Except.error BuildError.emptyData
  else
    let header := raw.header.map pyStrip
    if header.contains "land_type" then
      Except.ok ⟨header, raw.rows.map fun row =>
        row.enum.map fun jc => parsedCell raw.rows jc.1 jc.2⟩
    else Except.error BuildError.missingLandType

/-- The column names of the zoning-rule CSV. -/
def zoningHeader : List String :=
  ["land_type", "max_height", "pop_density_limit", "near_main_road",
   "setback_min", "floor_area_ratio"]

/-! ## Rule lookup (main file lines 67-71) -/

/-- `urban_planning_and_design14.py` lines 67-71: first
`land_type not in rules_df["land_type"].values` (the `UnknownLandType` error
path, modelled as `none`), then
`rules_df[rules_df["land_type"] == land_type].iloc[0]` — filter on exact string
equality and take the first row. -/
def lookup (table : List ZoningRule) (lt : String) : Option ZoningRule :=
  if (table.map ZoningRule.land_type).contains lt then
    (table.filter (fun row => row.land_type == lt)).head?
  else none

theorem lookup_cons_pos (row : ZoningRule) (rest : List ZoningRule) (lt : String)
    (hrow : row.land_type = lt) : lookup (row :: rest) lt = some row := by
  simp [lookup, hrow]

theorem lookup_cons_neg (row : ZoningRule) (rest : List ZoningRule) (lt : String)
    (hrow : row.land_type ≠ lt) : lookup (row :: rest) lt = lookup rest lt := by
  simp [lookup, hrow, Ne.symm hrow]

/-! ## Scoring (main file line 100; identical in phases 4 and 5)

`compliance_percentage = (len(compliances) / (len(violations) + len(compliances)) * 100)
                         if (violations or compliances) else 0` -/

/-- The `compliance_percentage` expression of the source, as a function of the
two list lengths.  The guard `(violations or compliances)` is truthiness of the
lists, i.e. `violationCount + compliantCount ≠ 0`. -/
def compliance_percentage (compliantCount violationCount : ℕ) : ℚ :=
  if violationCount + compliantCount = 0 then 0
  else (compliantCount : ℚ) / ((violationCount : ℚ) + (compliantCount : ℚ)) * 100

/-- The displayed score: the source renders the percentage with the format
string `f"{compliance_percentage:.1f}%"`, i.e. rounded to one decimal place
(rounding of exact halves is modelled as round-half-up; the five-check reports
only ever produce whole multiples of 20, where the conventions agree). -/
def roundTo1 (q : ℚ) : ℚ := (round (q * 10) : ℚ) / 10

/-- Score as shown by the app: percentage rounded to one decimal. -/
def displayedScore (compliantCount violationCount : ℕ) : ℚ :=
  roundTo1 (compliance_percentage compliantCount violationCount)

theorem compliance_percentage_nonneg (c v : ℕ) : 0 ≤ compliance_percentage c v := by
  unfold compliance_percentage
  split
  · exact le_refl 0
  · positivity

theorem compliance_percentage_le_100 (c v : ℕ) : compliance_percentage c v ≤ 100 := by
  unfold compliance_percentage
  split
  · norm_num
  · rename_i h
    have hpos : (0 : ℚ) < (v : ℚ) + (c : ℚ) := by
      have : 0 < v + c := Nat.pos_of_ne_zero h
      exact_mod_cast this
    rw [div_mul_eq_mul_div, div_le_iff₀ hpos]
    have hcv : (c : ℚ) ≤ (v : ℚ) + (c : ℚ) := by
      have : (0 : ℚ) ≤ (v : ℚ) := Nat.cast_nonneg v
      linarith
    nlinarith

theorem roundTo1_bounds (q : ℚ) (h0 : 0 ≤ q) (h1 : q ≤ 100) :
    0 ≤ roundTo1 q ∧ roundTo1 q ≤ 100 := by
  have hr : round (q * 10) = ⌊q * 10 + 1 / 2⌋ := round_eq _
  have hlo : (0 : ℤ) ≤ round (q * 10) := by
    rw [hr]
    exact Int.floor_nonneg.mpr (by linarith)
  have hhi : round (q * 10) ≤ 1000 := by
    rw [hr]
    by_contra hcon
    push_neg at hcon
    have h1001 : (1001 : ℤ) ≤ ⌊q * 10 + 1 / 2⌋ := by omega
    have : ((1001 : ℤ) : ℚ) ≤ q * 10 + 1 / 2 := Int.le_floor.mp h1001
    push_cast at this
    linarith
  have hloQ : (0 : ℚ) ≤ (round (q * 10) : ℚ) := by exact_mod_cast hlo
  have hhiQ : ((round (q * 10) : ℤ) : ℚ) ≤ 1000 := by exact_mod_cast hhi
  constructor
  · unfold roundTo1
    positivity
  · unfold roundTo1
    rw [div_le_iff₀ (by norm_num : (0 : ℚ) < 10)]
    linarith

end Urban

namespace Urban

/-- C1: for every (Proposal, ZoningRule) pair, the evaluation runs exactly five
checks in the fixed order Height, Density, Proximity, Setback, FAR, with no
short-circuiting: the five CheckResults always carry exactly these kinds in
this order, and the code's `violations` and `compliances` lists are exactly the
messages of the Violation- and Compliant-status results respectively, so every
check contributes its message regardless of the outcome of earlier checks. -/
theorem evaluate_five_checks_fixed_order (p : Proposal) (r : ZoningRule) :
    (evaluateSpec p r).map CheckResult.kind =
      [CheckKind.HeightLimit, CheckKind.PopulationDensity,
       CheckKind.ProximityToRoad, CheckKind.Setback, CheckKind.FloorAreaRatio]
    ∧ (evaluateLists p r).1 =
      ((evaluateSpec p r).filter (fun c => c.status == Status.Violation)).map CheckResult.message
    ∧ (evaluateLists p r).2 =
      ((evaluateSpec p r).filter (fun c => c.status == Status.Compliant)).map CheckResult.message := by
  cases h1 : heightViolation p r <;> cases h2 : densityViolation p r <;>
    cases h3 : proximityViolation p r <;> cases h4 : setbackViolation p r <;>
    cases h5 : farViolation p r <;>
    simp [evaluateLists, evaluateSpec, appendCheck, checkStatus, checkMsg,
      h1, h2, h3, h4, h5]

/-- C5: the score is `compliant_count / (compliant_count + violation_count) * 100`
rounded to one decimal place for display, it always lies in [0, 100], and when
both counts are zero it is defined as 0 (0.0 after rounding) rather than a
division error. -/
theorem score_formula_range_and_zero_case (c v : ℕ) :
    (v + c ≠ 0 →
      compliance_percentage c v = (c : ℚ) / ((v : ℚ) + (c : ℚ)) * 100)
    ∧ displayedScore c v = roundTo1 (compliance_percentage c v)
    ∧ 0 ≤ displayedScore c v ∧ displayedScore c v ≤ 100
    ∧ compliance_percentage 0 0 = 0 ∧ displayedScore 0 0 = 0 := by
  refine ⟨fun h => by rw [compliance_percentage, if_neg h], rfl, ?_, ?_, ?_, ?_⟩
  · exact (roundTo1_bounds _ (compliance_percentage_nonneg c v)
      (compliance_percentage_le_100 c v)).1
  · exact (roundTo1_bounds _ (compliance_percentage_nonneg c v)
      (compliance_percentage_le_100 c v)).2
  · rw [compliance_percentage, if_pos rfl]
  · unfold displayedScore roundTo1 compliance_percentage
    norm_num

/-- Witness for C5: at 4 compliant and 1 violated check the formula applies
and yields 80. -/
theorem score_formula_range_and_zero_case_witness :
    compliance_percentage 4 1 = (4 : ℚ) / ((1 : ℚ) + (4 : ℚ)) * 100 :=
  (score_formula_range_and_zero_case 4 1).1 (by norm_num)

/-- C9: the score is strictly monotonic in violations — with the total number
of checks fixed, replacing one Compliant result (so `1 ≤ c`) by a Violation
strictly decreases the compliance percentage. -/
theorem score_strictly_decreasing_in_violations (c v : ℕ) (hc : 1 ≤ c) :
    compliance_percentage (c - 1) (v + 1) < compliance_percentage c v := by
  have hc1 : ((c - 1 : ℕ) : ℚ) = (c : ℚ) - 1 := by
    push_cast [hc]
    ring
  have hne1 : ¬((v + 1) + (c - 1) = 0) := by omega
  have hne2 : ¬(v + c = 0) := by omega
  rw [compliance_percentage, if_neg hne1, compliance_percentage, if_neg hne2]
  have hden : ((v + 1 : ℕ) : ℚ) + ((c - 1 : ℕ) : ℚ) = (v : ℚ) + (c : ℚ) := by
    rw [hc1]
    push_cast
    ring
  rw [hden]
  have hpos : (0 : ℚ) < (v : ℚ) + (c : ℚ) := by
    have : 0 < v + c := by omega
    exact_mod_cast this
  rw [div_mul_eq_mul_div, div_mul_eq_mul_div, div_lt_div_iff₀ hpos hpos]
  rw [hc1]
  nlinarith

/-- Witness for C9: flipping one of the 3 compliant checks in a 3-compliant /
2-violated report strictly lowers the score. -/
theorem score_strictly_decreasing_in_violations_witness :
    compliance_percentage 2 3 < compliance_percentage 3 2 :=
  score_strictly_decreasing_in_violations 3 2 (by norm_num)

/-- C10: every evaluation partitions the five checks between the `violations`
and `compliances` lists, so the two lengths always sum to 5, and the resulting
compliance percentage is one of 0, 20, 40, 60, 80, 100. -/
theorem counts_sum_to_five_and_score_values (p : Proposal) (r : ZoningRule) :
    (evaluateLists p r).1.length + (evaluateLists p r).2.length = 5
    ∧ compliance_percentage (evaluateLists p r).2.length (evaluateLists p r).1.length
        ∈ ([0, 20, 40, 60, 80, 100] : List ℚ) := by
  cases h1 : heightViolation p r <;> cases h2 : densityViolation p r <;>
    cases h3 : proximityViolation p r <;> cases h4 : setbackViolation p r <;>
    cases h5 : farViolation p r <;>
    · simp only [evaluateLists, appendCheck, h1, h2, h3, h4, h5,
        if_true, if_false, List.nil_append, List.append_assoc,
        List.cons_append, List.singleton_append, List.length_cons,
        List.length_nil, Bool.false_eq_true]
      norm_num [compliance_percentage]

/-! ### Test fixtures (rule and proposals of spec §8's end-to-end test) -/

/-- A `Residential` rule row (the spec §8 sample, with an integral FAR limit
so that concrete evaluations reduce in the kernel). -/
def ruleResidential : ZoningRule := ⟨"Residential", 15, 500, "yes", 3, 2⟩

/-- A second row sharing the `Residential` key (for the duplicate-key part of
the lookup claim). -/
def ruleResidential2 : ZoningRule := ⟨"Residential", 20, 800, "no", 2, 2⟩

/-- A `Commercial` rule row. -/
def ruleCommercial : ZoningRule := ⟨"Commercial", 30, 1000, "yes", 1, 3⟩

/-- A small rule table containing a duplicated `land_type` key. -/
def sampleTable : List ZoningRule := [ruleResidential, ruleCommercial, ruleResidential2]

/-- A proposal sitting exactly on every quantitative limit of `ruleResidential`. -/
def proposalBoundary : Proposal := ⟨"Residential", 15, 500, "yes", 3, 2⟩

/-- C4: boundary law — for every proposal and rule, equality at the limit is
Compliant for each of the four quantitative checks, because each violation
test is a single-sided strict inequality (`>`, `>`, `<`, `>`). -/
theorem boundary_equality_is_compliant (p : Proposal) (r : ZoningRule) :
    (p.height = r.max_height →
      checkStatus (heightViolation p r) = Status.Compliant)
    ∧ (p.population_density = r.pop_density_limit →
      checkStatus (densityViolation p r) = Status.Compliant)
    ∧ (p.setback = r.setback_min →
      checkStatus (setbackViolation p r) = Status.Compliant)
    ∧ (p.floor_area_ratio = r.floor_area_ratio →
      checkStatus (farViolation p r) = Status.Compliant) := by
  refine ⟨fun h => ?_, fun h => ?_, fun h => ?_, fun h => ?_⟩ <;>
    simp [checkStatus, heightViolation, densityViolation, setbackViolation,
      farViolation, h]

/-- Witness for C4: the boundary proposal against the Residential rule is
compliant on all four quantitative checks. -/
theorem boundary_equality_is_compliant_witness :
    checkStatus (heightViolation proposalBoundary ruleResidential) = Status.Compliant
    ∧ checkStatus (densityViolation proposalBoundary ruleResidential) = Status.Compliant
    ∧ checkStatus (setbackViolation proposalBoundary ruleResidential) = Status.Compliant
    ∧ checkStatus (farViolation proposalBoundary ruleResidential) = Status.Compliant :=
  ⟨(boundary_equality_is_compliant proposalBoundary ruleResidential).1 rfl,
   (boundary_equality_is_compliant proposalBoundary ruleResidential).2.1 rfl,
   (boundary_equality_is_compliant proposalBoundary ruleResidential).2.2.1 rfl,
   (boundary_equality_is_compliant proposalBoundary ruleResidential).2.2.2 rfl⟩

/-- C7: `lookup` returns `none` (the `UnknownLandType` error path) exactly when
no row's `land_type` equals the query under case-sensitive exact string
equality, and when it returns a row, that row matches the query and is the
first matching occurrence in table order (everything before it does not
match). -/
theorem lookup_exact_first_match (table : List ZoningRule) (lt : String) :
    (lookup table lt = none ↔ ∀ row ∈ table, row.land_type ≠ lt)
    ∧ (∀ z, lookup table lt = some z →
        z.land_type = lt ∧
        ∃ pre post, table = pre ++ z :: post ∧ ∀ q ∈ pre, q.land_type ≠ lt) := by
  induction table with
  | nil => simp [lookup]
  | cons row rest ih =>
    by_cases hrow : row.land_type = lt
    · constructor
      · rw [lookup_cons_pos row rest lt hrow]
        simp [hrow]
      · intro z hz
        rw [lookup_cons_pos row rest lt hrow, Option.some_inj] at hz
        subst hz
        exact ⟨hrow, [], rest, rfl, by simp⟩
    · rw [lookup_cons_neg row rest lt hrow]
      constructor
      · rw [ih.1]
        constructor
        · intro h q hq
          rcases List.mem_cons.mp hq with h1 | h1
          · rw [h1]; exact hrow
          · exact h q h1
        · intro h q hq
          exact h q (List.mem_cons_of_mem _ hq)
      · intro z hz
        obtain ⟨hzlt, pre, post, htab, hpre⟩ := (ih.2) z hz
        refine ⟨hzlt, row :: pre, post, ?_, ?_⟩
        · rw [List.cons_append, htab]
        · intro q hq
          rcases List.mem_cons.mp hq with h1 | h1
          · rw [h1]; exact hrow
          · exact hpre q h1

/-- Witness for C7: on a table whose first and third rows both carry the key
`Residential`, `lookup` returns the first occurrence in table order. -/
theorem lookup_exact_first_match_witness :
    ruleResidential.land_type = "Residential"
    ∧ ∃ pre post, sampleTable = pre ++ ruleResidential :: post
        ∧ ∀ q ∈ pre, q.land_type ≠ "Residential" :=
  (lookup_exact_first_match sampleTable "Residential").2 ruleResidential rfl

/-- `true` when the build succeeds (no `st.stop()` on the error paths). -/
def buildOk (raw : RawTable) : Bool :=
  match build raw with
  | Except.ok _ => true
  | Except.error _ => false

/-- Counterexample for C6 as stated: a table whose `max_height` cell `"abc"`
fails numeric parsing still builds successfully (pandas keeps the string; the
source validates only the presence of `land_type`), and a table with a header
but zero rows also builds successfully — contradicting the claim that build
fails exactly when the column is absent, the table has zero rows, or a
required numeric column fails to parse. -/
theorem build_accepts_unparseable_and_zero_rows :
    buildOk ⟨zoningHeader, [["Residential", "abc", "500", "yes", "3", "1.5"]]⟩ = true
    ∧ parseRat "abc" = none
    ∧ buildOk ⟨zoningHeader, []⟩ = true := by
  refine ⟨by decide, by decide, by decide⟩

/-- C6 amended: the build fails (with `EmptyDataError` or the missing-column
error) exactly when the input has no columns at all or the stripped header
lacks `land_type`.  Zero data rows under a valid header do not fail, and
unparseable numeric cells are kept as strings by pandas' column inference
rather than rejected, so evaluation is still attempted for such tables. -/
theorem build_failure_characterization (raw : RawTable) :
    buildOk raw = false ↔
      (raw.header = [] ∨ "land_type" ∉ raw.header.map pyStrip) := by
  by_cases h1 : raw.header.isEmpty
  · simp [buildOk, build, h1, List.isEmpty_iff.mp h1]
  · have h1' : ¬raw.header = [] := fun h => h1 (by simp [h])
    by_cases h2 : "land_type" ∈ raw.header.map pyStrip
    · simp [buildOk, build, h1, h2, h1']
    · simp [buildOk, build, h1, h2, h1']

/-- A proposal violating only the proximity check against `ruleResidential`. -/
def proposalProximityOnly : Proposal := ⟨"Residential", 10, 300, "no", 3, 1⟩

/-- C2 (code bug): against `ruleResidential` the proposal
`proposalProximityOnly` produces exactly one violation — the proximity
message — yet the recommendation loop of `upd_phase4.py` writes nothing for
it, because the message "🚫 Site should be yes to a main road." contains none
of the five keywords the `elif` chain tests; in particular its own
unreachable branch keyword "Proximity" is absent.  So the recommendation list
is shorter than the violation count, contradicting one-remediation-per-
violation. -/
theorem proximity_violation_yields_no_recommendation :
    (evaluateLists proposalProximityOnly ruleResidential).1 =
      ["🚫 Site should be yes to a main road."]
    ∧ recommendations ruleResidential
        (evaluateLists proposalProximityOnly ruleResidential).1 = []
    ∧ containsSub "Proximity" "🚫 Site should be yes to a main road." = false := by
  refine ⟨by decide, by decide, by decide⟩

/-- Counterexample for C3 as stated: the proximity check of `upd_phase3.py`
lower-cases both sides, so the case-differing pair "Yes" / "yes" — two
strings that differ — reports no violation, contradicting "reports Violation
exactly when the two strings differ without any case normalization". -/
theorem proximity_phase3_normalizes_case :
    proximityViolation3 "Yes" "yes" = false ∧ ("Yes" : String) ≠ "yes" := by
  refine ⟨by decide, by decide⟩

/-- C3 amended: the proximity check of `urban_planning_and_design14.py` (and
`upd_phase4.py`) is a case-sensitive categorical comparison — Violation exactly
when the two strings differ — while the variant in `upd_phase3.py` lower-cases
both sides first, so inputs differing only in letter case are treated as equal
there. -/
theorem proximity_check_case_sensitivity (p : Proposal) (r : ZoningRule) :
    (proximityViolation p r = true ↔ p.near_main_road ≠ r.near_main_road)
    ∧ (proximityViolation3 p.near_main_road r.near_main_road = true ↔
        pyLower p.near_main_road ≠ pyLower r.near_main_road)
    ∧ (∀ a b : String, pyLower a = pyLower b → proximityViolation3 a b = false) := by
  refine ⟨?_, ?_, ?_⟩
  · simp [proximityViolation]
  · simp [proximityViolation3]
  · intro a b h
    simp [proximityViolation3, h]

/-- Witness for C3's amended theorem: a pair equal up to case is accepted by
the phase-3 check. -/
theorem proximity_check_case_sensitivity_witness :
    proximityViolation3 "YES" "yes" = false :=
  (proximity_check_case_sensitivity proposalBoundary ruleResidential).2.2
    "YES" "yes" (by decide)

/-- Counterexample for C8 as stated: the responder of `upd_phase5.py` does not
strip surrounding whitespace, so `respond(" Setback ")` misses the table and
returns the fallback, not the configured setback answer. -/
theorem respond5_unstripped_query_falls_back :
    respond5 " Setback " = fallback5
    ∧ fallback5 ≠ "🏠 Setbacks ensure buildings maintain proper distance from roads and neighboring properties." := by
  refine ⟨by decide, by decide⟩

/-- C8 amended: in `urban_planning_and_design14.py`, `respond` normalizes the
query by lower-casing and trimming surrounding whitespace and then performs an
exact (not substring) lookup: a normalized query matching a key returns that
key's answer, a normalized query matching no key returns the fallback;
`respond(" Setback ")` gives the setback answer and `respond("gibberish")` the
fallback verbatim.  In `upd_phase5.py`, `respond` lower-cases without trimming,
so `respond(" Setback ")` returns the fallback there. -/
theorem respond_normalized_exact_lookup (q : String) :
    (∀ a, (pyStrip (pyLower q), a) ∈ responses → respond q = a)
    ∧ (pyStrip (pyLower q) ∉ responses.map Prod.fst → respond q = fallback)
    ∧ respond " Setback " =
        "🏠 Setbacks ensure buildings maintain proper distance from roads and neighboring properties."
    ∧ respond "gibberish" = fallback
    ∧ respond5 " Setback " = fallback5 := by
  refine ⟨?_, ?_, by decide, by decide, by decide⟩
  · intro a ha
    simp only [responses, List.mem_cons, List.not_mem_nil, or_false] at ha
    rcases ha with h | h | h | h | h <;>
      · simp only [Prod.mk.injEq] at h
        simp only [respond, h.1, h.2]
        decide
  · intro hnot
    have hfind : responses.find? (fun kv => kv.1 == pyStrip (pyLower q)) = none := by
      rw [List.find?_eq_none]
      intro kv hkv heq
      have hk : kv.1 = pyStrip (pyLower q) := by
        simpa using heq
      exact hnot (hk ▸ List.mem_map_of_mem Prod.fst hkv)
    simp only [respond, dictGet, hfind]

/-- Witness for C8's amended theorem: a padded known topic hits its key after
normalization, and an unknown word falls back. -/
theorem respond_normalized_exact_lookup_witness :
    respond " FAR " =
      "📐 Floor Area Ratio defines the relationship between building size and land area."
    ∧ respond "Gibberish" = fallback :=
  ⟨(respond_normalized_exact_lookup " FAR ").1 _ (by decide),
   (respond_normalized_exact_lookup "Gibberish").2.1 (by decide)⟩

end Urban
